import Mathlib

/-!
# RNBS — shallow embedding and verification

A shallow embedding, in Lean 4, of the RNBS stateless coin-validation
protocol (source files `Coin.js` / `Wallet.js` in `src/src/Wallet.js`,
`Agent.js`, `Network.js`).  JavaScript numbers are modelled as `ℚ`
(coin values, reputation scores, importances) and `Nat` (timestamps,
counters).  SHA-256 is modelled as the injective symbolic function
`sha256` that keeps its preimage; RSA signing is modelled symbolically:
a signature records the signed payload and the signing key index, and
verification checks both, an idealisation of an unforgeable signature
scheme.  JS `Map`s are modelled as insertion-ordered association lists
(`mset` updates in place, as `Map.set` does), JS `Set`s as
insertion-ordered duplicate-free lists.  The Bloom filter `seenCoins`
is modelled as an exact set of coin ids: Bloom filters have no false
negatives, and none of the claims proved here depends on a false
positive occurring.  `Date.now()` is threaded as an explicit `now`
parameter.  Randomness in witness selection only arises when the
candidate pool is strictly larger than the requested count; the code
path exercised by the claims always has pool ≤ count, which the source
handles deterministically, and the random branch is abstracted by an
`oracle` argument.
-/

namespace RNBS

/-- Symbolic SHA-256: injective (collision-free idealisation), keeps its
preimage as a tagged string.  `crypto.createHash('sha256')...digest('hex')`. -/
def sha256 (s : String) : String := "sha256(" ++ s ++ ")"

/-- Symbolic public key of keypair `k` (`crypto.generateKeyPairSync` PEM). -/
def pubKeyOf (k : Nat) : String := "PK" ++ toString k

/-- `Wallet.getId()`: SHA-256 of the public key PEM, truncated to 16 chars. -/
def walletIdOf (k : Nat) : String := (sha256 (pubKeyOf k)).take 16

/-- Symbolic RSA-SHA256 signature: records the exact payload signed and the
keypair whose private key signed it (`crypto.sign('sha256', data, privKey)`). -/
structure Sig where
  data : String
  key : Nat
deriving DecidableEq, Repr

/-- `Wallet.verifySignature(data, signature, publicKey)`: true iff the
signature was produced over exactly `data` by the private key matching
`publicKey` (idealised unforgeable RSA verification; the real code returns
false on any payload/key mismatch, which is all the claims rely on). -/
def verifySignature (data : String) (signature : Sig) (publicKey : String) : Bool :=
  signature.data == data && pubKeyOf signature.key == publicKey

/-! ## JS collection primitives -/

/-- JS `Map.get`. -/
def mget {α : Type} (m : List (String × α)) (k : String) : Option α :=
  match m with
  | [] => none
  | (k', v) :: rest => if k' = k then some v else mget rest k

/-- JS `Map.set`: updates in place if the key exists (keeping its position),
otherwise appends. -/
def mset {α : Type} (m : List (String × α)) (k : String) (v : α) :
    List (String × α) :=
  match m with
  | [] => [(k, v)]
  | (k', v') :: rest => if k' = k then (k, v) :: rest else (k', v') :: mset rest k v

/-- JS `Map.has`. -/
def mhas {α : Type} (m : List (String × α)) (k : String) : Bool :=
  (mget m k).isSome

/-- JS `Map.delete`. -/
def mdel {α : Type} (m : List (String × α)) (k : String) : List (String × α) :=
  m.filter (fun p => p.1 ≠ k)

/-- JS `Set.add`: appends if absent. -/
def sadd (s : List String) (x : String) : List String :=
  if x ∈ s then s else s ++ [x]

/-- JS `x || d` for an optional number: `undefined`, `null` and `0` are
falsy and yield the default. -/
def jsOrQ (v : Option ℚ) (d : ℚ) : ℚ :=
  match v with
  | none => d
  | some x => if x = 0 then d else x

/-- JS `x || d` for an optional timestamp (`0` is falsy). -/
def jsOrNat (v : Option Nat) (d : Nat) : Nat :=
  match v with
  | none => d
  | some x => if x = 0 then d else x

/-- JS `x || d` for an optional string (`""` is falsy). -/
def jsOrStr (v : Option String) (d : String) : String :=
  match v with
  | none => d
  | some x => if x = "" then d else x

/-! ## Coin (`src/src/Wallet.js`, class `Coin`) -/

/-- A `transfer` event appended to `coin.history` by `Coin.transfer`
(`{from, to, timestamp, signature, witnesses, hash, value}`; the claims
never exercise `split`/`merge`, whose events are not modelled). -/
structure TransferEvent where
  src : String
  dst : String
  timestamp : Nat
  signature : Sig
  witnesses : List Nat
  prevHash : String
  value : ℚ
deriving DecidableEq, Repr

/-- The `Coin` object.  `metadata` and `version` carry no logic relevant to
the claims and are omitted; `expiryDate` is kept directly. -/
structure Coin where
  id : String
  ownerId : String
  value : ℚ
  history : List TransferEvent
  created : Nat
  lastTransferred : Nat
  status : String
  expiryDate : Option Nat
  hash : String
deriving DecidableEq, Repr

/-- The canonical serialization hashed by `Coin.updateHash`:
`JSON.stringify({id, ownerId, value, created, lastTransferred,
historyLength, status, lastHash})`, modelled as an injective flat
encoding (field order and content preserved). -/
def coinHashPreimage (c : Coin) : String :=
  "id=" ++ c.id ++ ";ownerId=" ++ c.ownerId ++ ";value=" ++ toString c.value ++
  ";created=" ++ toString c.created ++ ";lastTransferred=" ++ toString c.lastTransferred ++
  ";historyLength=" ++ toString c.history.length ++ ";status=" ++ c.status ++
  ";lastHash=" ++ (match c.history.getLast? with
    | some e => e.prevHash
    | none => "null")

/-- `Coin.updateHash()`: recomputes the hash over the current fields and
stores it in the coin (the JS method mutates `this.hash` and returns it). -/
def Coin.updateHash (c : Coin) : Coin :=
  { c with hash := sha256 (coinHashPreimage c) }

/-- The `Coin` constructor: validates `value > 0` (throwing
`'Coin value must be a positive number'` otherwise), initialises history
empty, status `active`, and computes the hash. -/
def Coin.create (ownerId : String) (value : ℚ) (id : String)
    (expiryDate : Option Nat) (now : Nat) : Except String Coin :=
  if value ≤ 0 then
    .error "Coin value must be a positive number"
  else
    .ok (Coin.updateHash
      { id := id, ownerId := ownerId, value := value, history := [],
        created := now, lastTransferred := now, status := "active",
        expiryDate := expiryDate, hash := "" })

/-- `Coin.verifyIntegrity()` as written in the source: it first calls
`updateHash()` — which OVERWRITES `this.hash` with the recomputed hash and
returns it — and then compares that return value with `this.hash`.
Returns the (possibly repaired) coin and the boolean verdict. -/
def Coin.verifyIntegrity (c : Coin) : Coin × Bool :=
  let calculatedHash := sha256 (coinHashPreimage c)
  let c' := Coin.updateHash c
  (c', calculatedHash == c'.hash)

/-- What the spec says `verify_integrity` does: recompute the hash over the
current fields and compare it with the hash currently *stored* in the coin,
without modifying the coin.  Kept for comparison with the source behaviour. -/
def Coin.integritySpec (c : Coin) : Bool :=
  sha256 (coinHashPreimage c) == c.hash

/-- `Coin.getSignatureData(recipientId, timestamp)`:
`id-ownerId-recipientId-timestamp-value-hash-status`. -/
def Coin.getSignatureData (c : Coin) (recipientId : String) (timestamp : Nat) :
    String :=
  c.id ++ "-" ++ c.ownerId ++ "-" ++ recipientId ++ "-" ++ toString timestamp ++
  "-" ++ toString c.value ++ "-" ++ c.hash ++ "-" ++ c.status

/-- `Coin.transfer(newOwnerId, signature, witnesses)`: precondition checks
(throwing on violation), then appends the transfer event, rewrites the
owner, bumps `lastTransferred` and recomputes the hash. -/
def Coin.transfer (c : Coin) (newOwnerId : String) (signature : Option Sig)
    (witnesses : List Nat) (now : Nat) : Except String Coin :=
  if newOwnerId = "" then
    .error "Invalid recipient ID"
  else if signature.isNone then
    .error "Signature required for transfer"
  else if c.status ≠ "active" then
    .error ("Cannot transfer coin with status: " ++ c.status)
  else if c.value ≤ 0 then
    .error "Cannot transfer coin with zero or negative value"
  else if (match c.expiryDate with | some e => decide (now > e) | none => false) then
    .error "Cannot transfer expired coin"
  else
    let ev : TransferEvent :=
      { src := c.ownerId, dst := newOwnerId, timestamp := now,
        signature := signature.getD ⟨"", 0⟩, witnesses := witnesses,
        prevHash := c.hash, value := c.value }
    .ok (Coin.updateHash
      { c with history := c.history ++ [ev], ownerId := newOwnerId,
               lastTransferred := now })

/-- The serialized form consumed by `Coin.fromJSON` (`Option` fields model
absent JSON keys; `metadata` and `version` are irrelevant to the claims). -/
structure CoinJSON where
  id : Option String
  ownerId : String
  value : Option ℚ
  created : Option Nat
  lastTransferred : Option Nat
  hash : String
  history : Option (List TransferEvent)
  status : Option String
  expiryDate : Option Nat
deriving DecidableEq, Repr

/-- `Coin.toJSON()`. -/
def Coin.toJSON (c : Coin) : CoinJSON :=
  { id := some c.id, ownerId := c.ownerId, value := some c.value,
    created := some c.created, lastTransferred := some c.lastTransferred,
    hash := c.hash, history := some c.history, status := some c.status,
    expiryDate := c.expiryDate }

/-- `Coin.fromJSON(data)`: constructs via `new Coin(data.ownerId,
data.value || 1, data.id, data.metadata || {})` (the constructor throw
propagates), then overrides `created`, `lastTransferred`, `history`,
`hash`, `status`, `expiryDate` from the data, and finally calls
`updateHash()` — which REPLACES the deserialized hash with the recomputed
one — warning (only on the console) when they differ.  `freshId` stands
for the `uuidv4()` used when `data.id` is falsy. -/
def Coin.fromJSON (data : CoinJSON) (freshId : String) (now : Nat) :
    Except String Coin :=
  match Coin.create data.ownerId (jsOrQ data.value 1)
      (jsOrStr data.id freshId) none now with
  | .error e => .error e
  | .ok c0 =>
    let createdV := jsOrNat data.created now
    .ok (Coin.updateHash
      { c0 with created := createdV,
                lastTransferred := jsOrNat data.lastTransferred createdV,
                history := data.history.getD [],
                hash := data.hash,
                status := jsOrStr data.status "active",
                expiryDate := data.expiryDate })

/-! ## Wallet (`src/src/Wallet.js`, class `Wallet`) -/

/-- An entry of `wallet.transactions` (`_recordTransaction`). -/
structure TxRecord where
  kind : String
  coinId : String
  timestamp : Nat
  recipient : String
  value : ℚ
deriving DecidableEq, Repr

/-- The `Wallet` object: its keypair (by index, determining `publicKey` and
`privateKey`), held coins, and local transaction history. -/
structure WalletState where
  keyIdx : Nat
  coins : List Coin
  transactions : List TxRecord
deriving DecidableEq, Repr

/-- `wallet.publicKey`. -/
def WalletState.publicKey (w : WalletState) : String := pubKeyOf w.keyIdx

/-- `Wallet.getId()`. -/
def WalletState.getId (w : WalletState) : String := walletIdOf w.keyIdx

/-- `Wallet._recordTransaction(type, coin, recipient)` (note the JS
`coin.value || 1` and `recipient || 'self'`). -/
def WalletState.recordTransaction (w : WalletState) (kind : String) (c : Coin)
    (recipient : Option String) (now : Nat) : WalletState :=
  { w with transactions := w.transactions ++
      [{ kind := kind, coinId := c.id, timestamp := now,
         recipient := jsOrStr recipient "self",
         value := jsOrQ (some c.value) 1 }] }

/-- `Wallet.addCoin(coin)`: accepts only if `coin.ownerId` equals this
wallet's id; appends and records a `receive`. -/
def WalletState.addCoin (w : WalletState) (c : Coin) (now : Nat) :
    WalletState × Bool :=
  if c.ownerId = w.getId then
    ((WalletState.recordTransaction { w with coins := w.coins ++ [c] }
        "receive" c none now), true)
  else
    (w, false)

/-- The transfer intent returned by `Wallet.transferCoin`
(`{coin, signature, sender, recipient, timestamp}`). -/
structure TransferIntent where
  coin : Coin
  signature : Sig
  sender : String
  recipient : String
  timestamp : Nat
deriving DecidableEq, Repr

/-- `Wallet.transferCoin(coinIndex, recipientPublicKey)`: signs
`"{coin.id}-{this.getId()}-{recipientPublicKey}-{Date.now()}"` with the
wallet's private key, removes the coin from the wallet, records a `send`,
and returns the intent.  Returns `none` when the index is out of range.
(The two `Date.now()` calls in the source are modelled as the same tick.) -/
def WalletState.transferCoin (w : WalletState) (coinIndex : Nat)
    (recipientPublicKey : String) (now : Nat) :
    WalletState × Option TransferIntent :=
  if h : coinIndex < w.coins.length then
    let coin := w.coins.get ⟨coinIndex, h⟩
    let signData := coin.id ++ "-" ++ w.getId ++ "-" ++ recipientPublicKey ++
      "-" ++ toString now
    let signature : Sig := ⟨signData, w.keyIdx⟩
    let w' := WalletState.recordTransaction
      { w with coins := w.coins.eraseIdx coinIndex } "send" coin
      (some recipientPublicKey) now
    (w', some { coin := coin, signature := signature, sender := w.getId,
                recipient := recipientPublicKey, timestamp := now })
  else
    (w, none)

/-! ## Agent (`src/Agent.js`) -/

/-- A value stored in `recentTransactionCache`: either the record keyed by a
coin id (`{timestamp, hash, sender, recipient, value}`) or the record keyed
by a transaction hash (`{timestamp, coinId}`). -/
inductive CacheVal where
  | coinEntry (timestamp : Nat) (hash : String) (sender recipient : String) (value : ℚ)
  | txEntry (timestamp : Nat) (coinId : String)
deriving DecidableEq, Repr

/-- The `timestamp` field used by `_pruneCache`. -/
def CacheVal.timestamp : CacheVal → Nat
  | .coinEntry t _ _ _ _ => t
  | .txEntry t _ => t

/-- An entry of `reputation.history` (the `reputationChange` record). -/
structure RepChange where
  timestamp : Nat
  wasSuccessful : Bool
  previousScore : ℚ
  importance : ℚ
  newScore : ℚ
  change : ℚ
deriving DecidableEq, Repr

/-- The agent's `reputation` record. -/
structure Reputation where
  score : ℚ
  successfulValidations : Nat
  failedValidations : Nat
  lastUpdated : Nat
  history : List RepChange
deriving DecidableEq, Repr

/-- The reputation record a fresh agent starts with (constructor). -/
def Reputation.initial (now : Nat) : Reputation :=
  { score := 100, successfulValidations := 0, failedValidations := 0,
    lastUpdated := now, history := [] }

/-- `Agent.updateReputation(wasSuccessful, importance)` restricted to the
`reputation` record it mutates.  Success:
`score := min(100, score + importance·(0.5 + (100 − score)/200))`; failure:
`score := max(0, score − 2·importance·(0.5 + score/200))`.  Note the source
truncates the history to its last 100 entries BEFORE pushing the new one. -/
def Reputation.update (r : Reputation) (wasSuccessful : Bool)
    (importance : ℚ) (now : Nat) : Reputation :=
  let newScore : ℚ :=
    if wasSuccessful then
      min 100 (r.score + importance * (1/2 + (100 - r.score) / 200))
    else
      max 0 (r.score - importance * (1/2 + r.score / 200) * 2)
  let change : RepChange :=
    { timestamp := now, wasSuccessful := wasSuccessful,
      previousScore := r.score, importance := importance,
      newScore := newScore, change := newScore - r.score }
  let trimmed := if r.history.length > 100 then
      (r.history.drop (r.history.length - 100)) else r.history
  { r with
    score := newScore,
    successfulValidations :=
      if wasSuccessful then r.successfulValidations + 1 else r.successfulValidations,
    failedValidations :=
      if wasSuccessful then r.failedValidations else r.failedValidations + 1,
    history := trimmed ++ [change],
    lastUpdated := now }

/-- The agent's `stats` counters. -/
structure Stats where
  validationsPerformed : Nat
  doubleSpendsPrevented : Nat
  zeroBalancePrevented : Nat
  validSignatures : Nat
  invalidSignatures : Nat
  bannedWallets : Nat
  lastReset : Nat
deriving DecidableEq, Repr

/-- Zeroed stats (constructor / `resetStats`). -/
def Stats.initial (now : Nat) : Stats :=
  { validationsPerformed := 0, doubleSpendsPrevented := 0,
    zeroBalancePrevented := 0, validSignatures := 0, invalidSignatures := 0,
    bannedWallets := 0, lastReset := now }

/-- The `Agent` object (persistence fields omitted: the on-disk state store
is out of the spec's scope).  `seenCoins` is the exact-set idealisation of
the Bloom filter. -/
structure AgentState where
  id : Nat
  wallet : WalletState
  seenCoins : List String
  recentTransactionCache : List (String × CacheVal)
  maxCacheSize : Nat
  validatedValues : List (String × ℚ)
  validationFailures : List (String × Nat)
  maxFailuresBeforeBan : Nat
  bannedWallets : List String
  publicKeyDirectory : List (String × String)
  reputation : Reputation
  stats : Stats
deriving DecidableEq, Repr

/-- A fresh agent (constructor, without persistence): id, own wallet with
keypair `keyIdx`, empty structures, `maxCacheSize = 100000`,
`maxFailuresBeforeBan = 5`, reputation score 100 with empty history. -/
def AgentState.create (id : Nat) (keyIdx : Nat) (now : Nat) : AgentState :=
  { id := id,
    wallet := { keyIdx := keyIdx, coins := [], transactions := [] },
    seenCoins := [], recentTransactionCache := [], maxCacheSize := 100000,
    validatedValues := [], validationFailures := [],
    maxFailuresBeforeBan := 5, bannedWallets := [], publicKeyDirectory := [],
    reputation := Reputation.initial now, stats := Stats.initial now }

/-- `Agent.registerPublicKey(walletId, publicKey)`. -/
def AgentState.registerPublicKey (a : AgentState) (walletId publicKey : String) :
    AgentState :=
  { a with publicKeyDirectory := mset a.publicKeyDirectory walletId publicKey }

/-- `Agent.isWalletBanned(walletId)`. -/
def AgentState.isWalletBanned (a : AgentState) (walletId : String) : Bool :=
  walletId ∈ a.bannedWallets

/-- `Agent.recordValidationFailure(walletId)`: first failure initialises the
counter to 1 (without a ban check); later failures increment it and ban the
wallet once `count + 1 ≥ maxFailuresBeforeBan` (bumping `stats.bannedWallets`
each time the threshold condition holds). -/
def AgentState.recordValidationFailure (a : AgentState) (walletId : String) :
    AgentState :=
  match mget a.validationFailures walletId with
  | none =>
    { a with validationFailures := mset a.validationFailures walletId 1 }
  | some currentCount =>
    let a' := { a with
      validationFailures := mset a.validationFailures walletId (currentCount + 1) }
    if currentCount + 1 ≥ a.maxFailuresBeforeBan then
      { a' with bannedWallets := sadd a'.bannedWallets walletId,
                stats := { a'.stats with bannedWallets := a'.stats.bannedWallets + 1 } }
    else a'

/-- `Agent.resetValidationFailures(walletId)`. -/
def AgentState.resetValidationFailures (a : AgentState) (walletId : String) :
    AgentState :=
  { a with validationFailures := mdel a.validationFailures walletId }

/-- `Agent.getPublicKeyForWallet(walletId)`: the local directory first; on a
miss, the agent's own wallet id resolves (and is cached); anything else is
unresolvable in-process. -/
def AgentState.getPublicKeyForWallet (a : AgentState) (walletId : String) :
    AgentState × Option String :=
  match mget a.publicKeyDirectory walletId with
  | some pk => (a, some pk)
  | none =>
    if a.wallet.getId = walletId then
      let dir := mset a.publicKeyDirectory walletId a.wallet.publicKey
      ({ a with publicKeyDirectory := dir }, some a.wallet.publicKey)
    else (a, none)

/-- `Agent.updateReputation` at the agent level. -/
def AgentState.updateReputation (a : AgentState) (wasSuccessful : Bool)
    (importance : ℚ) (now : Nat) : AgentState :=
  { a with reputation := a.reputation.update wasSuccessful importance now }

/-- `Agent._pruneCache()`: when over capacity, sort entries by timestamp
(stable) and delete the oldest until at most `maxCacheSize` remain. -/
def AgentState.pruneCache (a : AgentState) : AgentState :=
  if a.recentTransactionCache.length ≤ a.maxCacheSize then a
  else
    let sorted := a.recentTransactionCache.mergeSort
      (fun x y => x.2.timestamp ≤ y.2.timestamp)
    let toRemove := (sorted.take (sorted.length - a.maxCacheSize)).map Prod.fst
    { a with recentTransactionCache :=
        a.recentTransactionCache.filter (fun p => p.1 ∉ toRemove) }

/-- The base64 string form of a signature as interpolated into the replay
hash preimage (`${signature}`): injective symbolic encoding. -/
def Sig.toStr (s : Sig) : String :=
  "sig(" ++ s.data ++ "," ++ toString s.key ++ ")"

/-- A transfer object as seen by `Agent.validateTransfer`: any of the four
required fields may be missing (`Option`), which the shape check catches. -/
structure Transfer where
  coin : Option Coin
  signature : Option Sig
  sender : Option String
  recipient : Option String
  timestamp : Nat
deriving DecidableEq, Repr

/-- The transfer object built by `Wallet.transferCoin` (all fields set). -/
def TransferIntent.toTransfer (t : TransferIntent) : Transfer :=
  { coin := some t.coin, signature := some t.signature,
    sender := some t.sender, recipient := some t.recipient,
    timestamp := t.timestamp }

/-- The validation verdict returned by `Agent.validateTransfer`. -/
structure ValResult where
  valid : Bool
  reason : Option String
  witnessId : Option String
  timestamp : Option Nat
  reputationScore : Option ℚ
  previousTimestamp : Option Nat
deriving DecidableEq, Repr

/-- A negative verdict with the given reason. -/
def invalidRes (reason : String) : ValResult :=
  { valid := false, reason := some reason, witnessId := none,
    timestamp := none, reputationScore := none, previousTimestamp := none }

/-- Stages 5–11 of `Agent.validateTransfer` (double-spend check onwards),
reached once the shape, ban, integrity, status, value and inflation stages
have all passed.  `coin` is the (hash-repaired) coin, `t'` the transfer
carrying it. -/
def AgentState.validateFrom5 (a : AgentState) (t' : Transfer) (coin : Coin)
    (signature : Sig) (sender recipient : String) (timestamp now : Nat) :
    AgentState × Transfer × ValResult :=
  -- 5. Double-spend check with the (idealised) Bloom filter
  if coin.id ∈ a.seenCoins then
    match mget a.recentTransactionCache coin.id with
    | some previous =>
      let a1 := { a with stats :=
        { a.stats with doubleSpendsPrevented := a.stats.doubleSpendsPrevented + 1 } }
      let a2 := a1.recordValidationFailure sender
      let a3 := a2.updateReputation true 2 now
      (a3, t', { invalidRes ("confirmed double-spend detected (previous transfer: " ++
          toString previous.timestamp ++ ")") with
        previousTimestamp := some previous.timestamp })
    | none =>
      let a1 := { a with stats :=
        { a.stats with doubleSpendsPrevented := a.stats.doubleSpendsPrevented + 1 } }
      let a2 := a1.recordValidationFailure sender
      let a3 := a2.updateReputation true (3/2) now
      (a3, t', invalidRes "possible double-spend detected")
  else
  -- 6. Expiry (`coin.expiryDate && Date.now() > coin.expiryDate`; an
  -- expiry of 0 is falsy in JS)
  if (match coin.expiryDate with
      | some e => e ≠ 0 && now > e
      | none => false : Bool) then
    (a, t', invalidRes "coin has expired")
  else
  -- 7. Replay: hash of the full transfer tuple against the recency cache
  let txHash := sha256 (coin.id ++ "-" ++ sender ++ "-" ++ recipient ++ "-" ++
    signature.toStr ++ "-" ++ toString timestamp ++ "-" ++ toString coin.value)
  if mhas a.recentTransactionCache txHash then
    (a.recordValidationFailure sender, t', invalidRes "transaction replay detected")
  else
  -- 8. Signature over `coin.getSignatureData(recipient, timestamp)`
  let a1 := (a.getPublicKeyForWallet sender).1
  match (a.getPublicKeyForWallet sender).2 with
  | none =>
    (a1, t', invalidRes "unable to retrieve sender public key")
  | some senderPublicKey =>
    if !(verifySignature (coin.getSignatureData recipient timestamp)
        signature senderPublicKey) then
      let a2 := { a1 with stats :=
        { a1.stats with invalidSignatures := a1.stats.invalidSignatures + 1 } }
      (a2.recordValidationFailure sender, t', invalidRes "invalid signature")
    else
      let a2 := { a1 with stats :=
        { a1.stats with validSignatures := a1.stats.validSignatures + 1 } }
      -- 9. Accept: record the coin id and both cache entries
      let a3 := { a2 with seenCoins := sadd a2.seenCoins coin.id }
      let cache4 := mset a3.recentTransactionCache coin.id
        (.coinEntry now txHash sender recipient coin.value)
      let a4 := { a3 with recentTransactionCache := cache4 }
      let cache5 := mset a4.recentTransactionCache txHash (.txEntry now coin.id)
      let a5 := { a4 with recentTransactionCache := cache5 }
      let vv6 := mset a5.validatedValues coin.id coin.value
      let a6 := { a5 with validatedValues := vv6 }
      -- 10. Prune, 11. reset the sender's failure counter, reward success
      let a7 := a6.pruneCache
      let a8 := a7.resetValidationFailures sender
      let a9 := a8.updateReputation true 1 now
      let res : ValResult :=
        { valid := true, reason := none,
          witnessId := some a9.wallet.getId, timestamp := some now,
          reputationScore := some a9.reputation.score, previousTimestamp := none }
      (a9, t', res)

/-- JS falsiness of an optional string field (`undefined`, `null`, `""`). -/
def strFalsy : Option String → Bool
  | none => true
  | some s => s == ""

/-- A placeholder coin for the never-exposed `Option.getD` defaults below. -/
def defaultCoin : Coin :=
  { id := "", ownerId := "", value := 0, history := [], created := 0,
    lastTransferred := 0, status := "", expiryDate := none, hash := "" }

/-- `Agent.validateTransfer(transfer)`: the ordered validation pipeline.
Returns the updated agent, the transfer as left behind (its coin's hash is
rewritten by the integrity stage — the JS coin object is mutated in place),
and the verdict.  The surrounding try/catch never fires in this model: all
the modelled operations are total.  The shape stage mirrors the JS
falsiness test `!coin || !signature || !sender || !recipient`; past it the
four fields are present, so the `getD` defaults are never exposed. -/
def AgentState.validateTransfer (a0 : AgentState) (t : Transfer) (now : Nat) :
    AgentState × Transfer × ValResult :=
  let a := { a0 with stats := { a0.stats with
    validationsPerformed := a0.stats.validationsPerformed + 1 } }
  -- Basic validation (JS falsiness: a missing field or an empty id string)
  if t.coin.isNone || t.signature.isNone || strFalsy t.sender || strFalsy t.recipient then
    (a, t, invalidRes "missing required transfer data")
  else
    let coin0 := t.coin.getD defaultCoin
    let signature := t.signature.getD { data := "", key := 0 }
    let sender := t.sender.getD ""
    let recipient := t.recipient.getD ""
    -- 0. Ban check
    if a.isWalletBanned sender then
      (a, t, invalidRes "sender wallet is banned due to suspicious activity")
    else
    -- 1. Integrity (note: `verifyIntegrity` repairs the stored hash)
    let ci := coin0.verifyIntegrity
    let coin := ci.1
    let t' := { t with coin := some coin }
    if !ci.2 then
      (a.recordValidationFailure sender, t', invalidRes "coin integrity check failed")
    else
    -- 2. Status
    if coin.status ≠ "active" then
      (a.recordValidationFailure sender, t',
        invalidRes ("coin status is " ++ coin.status ++ ", not active"))
    else
    -- 3. Zero / negative value
    if coin.value ≤ 0 then
      let a1 := { a with stats := { a.stats with
        zeroBalancePrevented := a.stats.zeroBalancePrevented + 1 } }
      (a1.recordValidationFailure sender, t',
        invalidRes "zero or negative value coin detected")
    else
    -- 4. Inflation against the last value this witness recorded
    match mget a.validatedValues coin.id with
    | some lastKnownValue =>
      if coin.value > lastKnownValue then
        (a.recordValidationFailure sender, t',
          invalidRes ("coin value has been inflated from " ++
            toString lastKnownValue ++ " to " ++ toString coin.value))
      else
        a.validateFrom5 t' coin signature sender recipient t.timestamp now
    | none =>
      a.validateFrom5 t' coin signature sender recipient t.timestamp now

/-! ## Network (`src/src/Network.js`) -/

/-- The transaction-related events the network emits (peer and stats events
are out of the claims' scope). -/
inductive NetEvent where
  | txNew (txId : String)
  | txInvalid (txId : String) (reason : Option String)
  | txConfirmed (txId : String) (witnesses : List Nat)
deriving DecidableEq, Repr

/-- An entry of `pendingTx.validations`: the spread verdict with
`witnessId` overwritten by the witness agent's numeric id. -/
structure ValRecord where
  valid : Bool
  reason : Option String
  witnessId : Nat
  timestamp : Nat
deriving DecidableEq, Repr

/-- A `pendingTransactions` record. -/
structure PendingTx where
  transaction : TransferIntent
  witnesses : List (Nat × Nat)
  validations : List ValRecord
  timestamp : Nat
  retries : Nat
  status : Option String
  failReason : Option String
deriving DecidableEq, Repr

/-- What `Network._processTransaction` actually returns: either the bare
transaction-id STRING (the early returns, including the one taken on a
negative witness verdict), or the `{txId, status, …}` object of the
confirmed/pending paths; `threw` models an uncaught `Coin.transfer` throw. -/
inductive ProcResult where
  | idStr (txId : String)
  | obj (txId : String) (status : String) (witnesses : Option (List Nat))
      (validations : Option Nat)
  | threw (msg : String)
deriving DecidableEq, Repr

/-- JS `result.status`: a string (the `idStr` case) has no such property. -/
def ProcResult.statusProp : ProcResult → Option String
  | .idStr _ => none
  | .obj _ st _ _ => some st
  | .threw _ => none

/-- JS `result.txId`: a string has no such property. -/
def ProcResult.txIdProp : ProcResult → Option String
  | .idStr _ => none
  | .obj tx _ _ _ => some tx
  | .threw _ => none

/-- The network state (`options` folded into `requiredWitnesses`; peers,
retries and timers belong to the background loops, outside the claims). -/
structure NetworkState where
  agents : List AgentState
  pendingTransactions : List (String × PendingTx)
  requiredWitnesses : Nat
deriving DecidableEq, Repr

/-- Write back a (mutated) agent, identified by its id. -/
def NetworkState.setAgent (net : NetworkState) (a : AgentState) : NetworkState :=
  { net with agents := net.agents.map (fun x => if x.id = a.id then a else x) }

/-- JS `Array.findIndex` over agents by wallet id (`-1` when absent). -/
def findAgentIdx (agents : List AgentState) (wid : String) : Int :=
  match agents.findIdx? (fun ag => ag.wallet.getId = wid) with
  | some i => (i : Int)
  | none => -1

/-- `Network.getRandomWitnesses(count, exclude)`: agents whose id is not
excluded; when the pool is no larger than `count` the whole pool is
returned (this is the only branch the verified scenarios reach); the
reputation-weighted random branch is abstracted by `oracle`. -/
def NetworkState.getRandomWitnesses (net : NetworkState) (count : Nat)
    (exclude : List Int) (oracle : List AgentState) : List AgentState :=
  let available := net.agents.filter (fun ag => !((ag.id : Int) ∈ exclude))
  if available.length ≤ count then available else oracle

/-- Replace the pending record under `txId` by `f` of it (the JS code
mutates the record object held in the map). -/
def NetworkState.modifyPending (net : NetworkState) (txId : String)
    (f : PendingTx → PendingTx) : NetworkState :=
  match mget net.pendingTransactions txId with
  | some p =>
    { net with pendingTransactions := mset net.pendingTransactions txId (f p) }
  | none => net

/-- The witness loop of `_processTransaction`: each selected witness is
appended to the tried list, validates the (aliased, possibly
hash-repaired) transfer, and its verdict is recorded; the first negative
verdict emits `transaction:invalid`, marks the pending record failed, and
returns the bare `txId` string.  Returns `none` as the fourth component
when every consulted witness accepted. -/
def NetworkState.witnessLoop (net : NetworkState) (txId : String)
    (tr : TransferIntent) (ws : List Nat) (events : List NetEvent)
    (now : Nat) :
    NetworkState × TransferIntent × List NetEvent × Option ProcResult :=
  match ws with
  | [] => (net, tr, events, none)
  | w :: rest =>
    let net1 := net.modifyPending txId
      (fun p => { p with witnesses := p.witnesses ++ [(w, now)] })
    match net1.agents.find? (fun ag => ag.id = w) with
    | none => net1.witnessLoop txId tr rest events now
    | some witness =>
      let vout := witness.validateTransfer tr.toTransfer now
      let tr' := { tr with coin := vout.2.1.coin.getD tr.coin }
      let net2 := net1.setAgent vout.1
      let vres := vout.2.2
      let net3 := net2.modifyPending txId (fun p =>
        { p with validations := p.validations ++
            [{ valid := vres.valid, reason := vres.reason, witnessId := w,
               timestamp := now }] })
      if !vres.valid then
        let net4 := net3.modifyPending txId (fun p =>
          { p with status := some "failed", failReason := vres.reason })
        (net4, tr', events ++ [NetEvent.txInvalid txId vres.reason],
          some (ProcResult.idStr txId))
      else
        net3.witnessLoop txId tr' rest events now

/-- `Network._processTransaction(transaction)` (one invocation; the retry
sweep is a background loop outside the claims).  Also returns the final
transfer intent, standing for the JS aliasing of `transaction.coin`. -/
def NetworkState.processTransaction (net : NetworkState) (tr : TransferIntent)
    (oracle : List AgentState) (now : Nat) :
    NetworkState × TransferIntent × List NetEvent × ProcResult :=
  let txId := sha256 (tr.coin.id ++ "-" ++ tr.sender ++ "-" ++ tr.recipient ++
    "-" ++ toString tr.timestamp)
  let isNew := !(mhas net.pendingTransactions txId)
  let p0 : PendingTx :=
    { transaction := tr, witnesses := [], validations := [], timestamp := now,
      retries := 0, status := none, failReason := none }
  let net1 := if isNew then
      { net with pendingTransactions := mset net.pendingTransactions txId p0 }
    else net
  let events0 : List NetEvent := if isNew then [NetEvent.txNew txId] else []
  match mget net1.pendingTransactions txId with
  | none => (net1, tr, events0, ProcResult.idStr txId)
  | some pendingTx =>
    if (pendingTx.validations.filter (·.valid)).length ≥ net1.requiredWitnesses then
      (net1, tr, events0, ProcResult.idStr txId)
    else
      let senderIdx := findAgentIdx net1.agents tr.sender
      let recipientIdx := findAgentIdx net1.agents tr.recipient
      let usedWitnessIds := pendingTx.witnesses.map (fun q => (q.1 : Int))
      let witnesses := net1.getRandomWitnesses net1.requiredWitnesses
        ([senderIdx, recipientIdx] ++ usedWitnessIds) oracle
      let loopOut := net1.witnessLoop txId tr (witnesses.map (·.id)) events0 now
      let net2 := loopOut.1
      let tr' := loopOut.2.1
      let events1 := loopOut.2.2.1
      match loopOut.2.2.2 with
      | some r => (net2, tr', events1, r)
      | none =>
        match mget net2.pendingTransactions txId with
        | none => (net2, tr', events1, ProcResult.idStr txId)
        | some ptx =>
          let validWitnesses := ptx.validations.filter (·.valid)
          if validWitnesses.length ≥ net2.requiredWitnesses then
            let witnessIds := validWitnesses.map (·.witnessId)
            match tr'.coin.transfer tr.recipient (some tr.signature)
                witnessIds now with
            | .error e => (net2, tr', events1, ProcResult.threw e)
            | .ok movedCoin =>
              let tr2 := { tr' with coin := movedCoin }
              let net3 :=
                match net2.agents.find? (fun ag => ag.wallet.getId = tr.recipient) with
                | some recipientAgent =>
                  let wb := recipientAgent.wallet.addCoin movedCoin now
                  net2.setAgent { recipientAgent with wallet := wb.1 }
                | none => net2
              let net4 := { net3 with
                pendingTransactions := mdel net3.pendingTransactions txId }
              (net4, tr2, events1 ++ [NetEvent.txConfirmed txId witnessIds],
                ProcResult.obj txId "confirmed" (some witnessIds) none)
          else
            (net2, tr', events1,
              ProcResult.obj txId "pending" none (some validWitnesses.length))

/-- The `{success, tx_id?, reason?}` result of `Network.transferCoin`. -/
structure TransferResult where
  success : Bool
  txId : Option String
  reason : Option String
deriving DecidableEq, Repr

/-- `Network.transferCoin(fromAgentId, toAgentId, coinIndex)`: builds the
intent from the sender's wallet (removing the coin), processes it, and —
per the source — rolls back ONLY when `result.status === 'failed'`, a
comparison against the value `_processTransaction` returned. -/
def NetworkState.transferCoin (net : NetworkState)
    (fromAgentId toAgentId coinIndex : Nat) (oracle : List AgentState)
    (now : Nat) : NetworkState × List NetEvent × TransferResult :=
  match net.agents.get? fromAgentId, net.agents.get? toAgentId with
  | some senderAgent, some recipientAgent =>
    let recipientId := recipientAgent.wallet.getId
    let wout := senderAgent.wallet.transferCoin coinIndex recipientId now
    let net1 := net.setAgent { senderAgent with wallet := wout.1 }
    match wout.2 with
    | none =>
      (net1, [], { success := false, txId := none, reason := some "coin not found" })
    | some transfer =>
      let pout := net1.processTransaction transfer oracle now
      let net2 := pout.1
      let trFinal := pout.2.1
      let events := pout.2.2.1
      let result := pout.2.2.2
      if result.statusProp = some "failed" then
        -- rollback branch: reinsert the coin, report failure
        match net2.agents.get? fromAgentId with
        | some sender2 =>
          let wb := sender2.wallet.addCoin trFinal.coin now
          let net3 := net2.setAgent { sender2 with wallet := wb.1 }
          (net3, events,
            { success := false, txId := none, reason := some "transaction failed" })
        | none =>
          (net2, events,
            { success := false, txId := none, reason := some "transaction failed" })
      else
        (net2, events,
          { success := true, txId := result.txIdProp, reason := none })
  | _, _ =>
    (net, [], { success := false, txId := none, reason := some "invalid agent IDs" })

/-! ## Concrete network scenario (spec §8, Scenario A setup)

Five agents, `requiredWitnesses = 3`, every agent's public key registered
with every other agent exactly as `Network.initialize` does, agent 0
holding one active, unexpired coin of value 5 (added through
`Wallet.addCoin`, as `initialize` adds seeded coins). -/

/-- The directory `initialize` leaves in every agent: each of the five
wallet ids mapped to its public key. -/
def fullDirectory : List (String × String) :=
  (List.range 5).map (fun k => (walletIdOf k, pubKeyOf k))

/-- Coin X: value 5, owned by agent 0's wallet, fresh from the constructor. -/
def coinX : Coin :=
  Coin.updateHash
    { id := "coin-X", ownerId := walletIdOf 0, value := 5, history := [],
      created := 1000, lastTransferred := 1000, status := "active",
      expiryDate := none, hash := "" }

/-- Agent `i` of the scenario (keypair `i`, full directory; agent 0 holds
coin X). -/
def scenarioAgent (i : Nat) : AgentState :=
  let base := AgentState.create i i 1000
  let base := { base with publicKeyDirectory := fullDirectory }
  if i = 0 then { base with wallet := (base.wallet.addCoin coinX 1000).1 }
  else base

/-- The five-agent network of the scenario. -/
def scenarioNet : NetworkState :=
  { agents := (List.range 5).map scenarioAgent,
    pendingTransactions := [], requiredWitnesses := 3 }

/-- The run of Scenario A: transfer agent 0's (only) coin to agent 1. -/
def c1run : NetworkState × List NetEvent × TransferResult :=
  scenarioNet.transferCoin 0 1 0 [] 2000

/-- Is an event `transaction:confirmed`? -/
def isConfirmedEv : NetEvent → Bool
  | .txConfirmed _ _ => true
  | _ => false

/-- Is an event `transaction:invalid` with the given reason? -/
def isInvalidEvWith (r : String) : NetEvent → Bool
  | .txInvalid _ reason => reason == some r
  | _ => false

/-- The transfer intent agent 0's wallet emits in the scenario. -/
def c1intent : TransferIntent :=
  (((scenarioAgent 0).wallet).transferCoin 0 (walletIdOf 1) 2000).2.getD
    { coin := coinX, signature := ⟨"", 0⟩, sender := "", recipient := "",
      timestamp := 0 }

/-- A coin whose `value` field was mutated outside the sanctioned
operations (no `updateHash` call), so its stored hash is stale. -/
def tamperedCoin : Coin := { coinX with value := 999 }

/-- A sequence of `validateTransfer` calls (transfer and clock tick each),
folded over the agent state. -/
def AgentState.validateMany (a : AgentState) (ts : List (Transfer × Nat)) :
    AgentState :=
  ts.foldl (fun acc p => (acc.validateTransfer p.1 p.2).1) a

/-- A sequence of `updateReputation` calls
(`(wasSuccessful, importance, now)` per call), folded left to right. -/
def Reputation.runUpdates (r : Reputation) (calls : List (Bool × ℚ × Nat)) :
    Reputation :=
  calls.foldl (fun acc c => acc.update c.1 c.2.1 c.2.2) r

/-! ### Concrete agent-level scenarios for C4, C5 and C8 -/

/-- A lone witness agent that knows every scenario public key. -/
def c4agent0 : AgentState :=
  { AgentState.create 9 9 0 with publicKeyDirectory := fullDirectory }

/-- A correctly signed transfer of coin X from wallet 0 to wallet 1 (the
signature covers exactly the stage-10 payload, so this validation passes). -/
def c4t1 : Transfer :=
  { coin := some coinX,
    signature := some ⟨coinX.getSignatureData (walletIdOf 1) 500, 0⟩,
    sender := some (walletIdOf 0), recipient := some (walletIdOf 1),
    timestamp := 500 }

/-- The witness state after the successful validation of `c4t1`. -/
def c4s1 : AgentState := (c4agent0.validateTransfer c4t1 500).1

/-- A second transfer referencing the same coin id but with the value
inflated from 5 to 7. -/
def c4t2 : Transfer :=
  { coin := some { coinX with value := 7 }, signature := some ⟨"junk", 0⟩,
    sender := some (walletIdOf 0), recipient := some (walletIdOf 1),
    timestamp := 600 }

/-- A second transfer referencing the same coin id, well-formed and
non-inflated (value 5 again). -/
def c4t3 : Transfer :=
  { coin := some coinX, signature := some ⟨"junk", 0⟩,
    sender := some (walletIdOf 0), recipient := some (walletIdOf 1),
    timestamp := 700 }

/-- An agent with a recorded value 5 for coin X and a banned sender. -/
def c8agent : AgentState :=
  { AgentState.create 3 3 0 with
      validatedValues := [("coin-X", 5)]
      bannedWallets := ["wBad"] }

/-- The inflated presentation (value 7 over a recorded 5) from the banned
sender. -/
def c8t : Transfer :=
  { coin := some { coinX with value := 7 }, signature := some ⟨"x", 0⟩,
    sender := some "wBad", recipient := some "r", timestamp := 5 }

/-- An agent with a recorded value 5 for coin X (nobody banned). -/
def c8agent2 : AgentState :=
  { AgentState.create 4 4 0 with validatedValues := [("coin-X", 5)] }

/-- A banned-sender agent for the C5 witness. -/
def c5banned : AgentState :=
  { AgentState.create 8 8 0 with bannedWallets := ["w"] }

/-! ### The 30-forged-transfer scenario of spec §8, Scenario D (C6)

All five agents start at score 100 with no history (the fresh-constructor
reputation, as the scenario prescribes).  Agent 0 is the designated
malicious agent M, holding 30 coins; it attempts 30 transfers, every one
of which is rejected by the first consulted witness (`invalid signature`
for the first five — the signing/verification payload mismatch — and
`sender wallet is banned…` once the witness's failure counter for M's
wallet reaches 5). -/

/-- The `i`-th coin seeded into agent M's wallet. -/
def c6coin (i : Nat) : Coin :=
  Coin.updateHash
    { id := "mcoin-" ++ toString i, ownerId := walletIdOf 0, value := 5,
      history := [], created := 1000, lastTransferred := 1000,
      status := "active", expiryDate := none, hash := "" }

/-- Agent `i` of the scenario: fresh reputation (score 100, no history),
full key directory; agent 0 (M) holds the 30 coins. -/
def c6agent (i : Nat) : AgentState :=
  let base := AgentState.create i i 1000
  let base := { base with publicKeyDirectory := fullDirectory }
  if i = 0 then
    let w : WalletState :=
      { keyIdx := 0, coins := (List.range 30).map c6coin,
        transactions := (List.range 30).map (fun j =>
          { kind := "receive", coinId := (c6coin j).id, timestamp := 1000,
            recipient := "self", value := 5 }) }
    { base with wallet := w }
  else base

/-- The five-agent network of Scenario D. -/
def c6net0 : NetworkState :=
  { agents := (List.range 5).map c6agent,
    pendingTransactions := [], requiredWitnesses := 3 }

/-- The run: 30 transfers from M (agent 0) to agent 1, accumulating every
emitted event. -/
def c6run : NetworkState × List NetEvent :=
  (List.range 30).foldl
    (fun acc i =>
      let r := acc.1.transferCoin 0 1 0 [] (3000 + i)
      (r.1, acc.2 ++ r.2.1))
    (c6net0, [])

/-- Is an event `transaction:invalid`? -/
def isInvalidEv : NetEvent → Bool
  | .txInvalid _ _ => true
  | _ => false

/-- A well-formed transfer whose sender is the banned wallet `w`. -/
def c5t : Transfer :=
  { coin := some coinX, signature := some ⟨"x", 0⟩, sender := some "w",
    recipient := some "r", timestamp := 1 }

/-! ## Theorems -/

/-- `coinX` is exactly what the `Coin` constructor builds. -/
theorem coinX_from_constructor :
    Coin.create (walletIdOf 0) 5 "coin-X" none 1000 = .ok coinX := rfl

/-- One `updateReputation` call keeps the score inside `[0, 100]` whenever
the importance is nonnegative. -/
theorem update_score_bounds (r : Reputation) (b : Bool) (imp : ℚ) (now : Nat)
    (h0 : 0 ≤ r.score) (h1 : r.score ≤ 100) (himp : 0 ≤ imp) :
    0 ≤ (r.update b imp now).score ∧ (r.update b imp now).score ≤ 100 := by
  unfold Reputation.update
  cases b
  · dsimp only
    constructor
    · have hfac : (0 : ℚ) ≤ 1/2 + r.score / 200 := by linarith
      have := mul_nonneg (mul_nonneg himp hfac) (by norm_num : (0:ℚ) ≤ 2)
      exact le_max_left 0 _
    · have hfac : (0 : ℚ) ≤ 1/2 + r.score / 200 := by linarith
      have hnn := mul_nonneg (mul_nonneg himp hfac) (by norm_num : (0:ℚ) ≤ 2)
      have : r.score - imp * (1/2 + r.score / 200) * 2 ≤ 100 := by linarith
      exact max_le (by norm_num) this
  · dsimp only
    constructor
    · have hfac : (0 : ℚ) ≤ 1/2 + (100 - r.score) / 200 := by linarith
      have hnn := mul_nonneg himp hfac
      have : (0 : ℚ) ≤ r.score + imp * (1/2 + (100 - r.score) / 200) := by linarith
      exact le_min (by norm_num) this
    · exact min_le_left _ _

/-- One `updateReputation` call appends one history entry after truncating
to the last 100, so a history of at most 101 entries stays at most 101. -/
theorem update_history_le (r : Reputation) (b : Bool) (imp : ℚ) (now : Nat)
    (h : r.history.length ≤ 101) :
    (r.update b imp now).history.length ≤ 101 := by
  unfold Reputation.update
  dsimp only
  rw [List.length_append]
  split
  · rw [List.length_drop]
    simp only [List.length_singleton]
    omega
  · simp only [List.length_singleton]
    omega

/-! ### Structural lemmas about the agent-state operations -/

theorem mget_mset_self {α : Type} (m : List (String × α)) (k : String) (v : α) :
    mget (mset m k v) k = some v := by
  induction m with
  | nil => simp [mset, mget]
  | cons p rest ih =>
    by_cases h : p.1 = k
    · simp [mset, mget, h]
    · simp [mset, mget, h, ih]

theorem mget_mset_ne {α : Type} (m : List (String × α)) (k k' : String) (v : α)
    (h : k ≠ k') : mget (mset m k v) k' = mget m k' := by
  induction m with
  | nil => simp [mset, mget, h]
  | cons p rest ih =>
    by_cases hp : p.1 = k
    · simp [mset, mget, hp, h]
    · by_cases hp' : p.1 = k'
      · simp [mset, mget, hp, hp', Ne.symm h]
      · simp [mset, mget, hp, hp', ih]

theorem subset_sadd (s : List String) (x : String) : s ⊆ sadd s x := by
  unfold sadd
  split
  · exact fun _ h => h
  · exact List.subset_append_left s [x]

theorem mem_sadd_self (s : List String) (x : String) : x ∈ sadd s x := by
  unfold sadd
  split
  · assumption
  · simp

/-- `recordValidationFailure` leaves every field except
`validationFailures`, `bannedWallets` and `stats` untouched. -/
theorem rvf_fields (a : AgentState) (w : String) :
    (a.recordValidationFailure w).seenCoins = a.seenCoins ∧
    (a.recordValidationFailure w).validatedValues = a.validatedValues ∧
    (a.recordValidationFailure w).recentTransactionCache = a.recentTransactionCache ∧
    (a.recordValidationFailure w).wallet = a.wallet ∧
    (a.recordValidationFailure w).reputation = a.reputation ∧
    (a.recordValidationFailure w).maxFailuresBeforeBan = a.maxFailuresBeforeBan ∧
    (a.recordValidationFailure w).maxCacheSize = a.maxCacheSize ∧
    (a.recordValidationFailure w).publicKeyDirectory = a.publicKeyDirectory := by
  unfold AgentState.recordValidationFailure
  cases mget a.validationFailures w
  · exact ⟨rfl, rfl, rfl, rfl, rfl, rfl, rfl, rfl⟩
  · dsimp only
    split <;> exact ⟨rfl, rfl, rfl, rfl, rfl, rfl, rfl, rfl⟩

theorem rvf_banned_mono (a : AgentState) (w : String) :
    a.bannedWallets ⊆ (a.recordValidationFailure w).bannedWallets := by
  unfold AgentState.recordValidationFailure
  cases mget a.validationFailures w
  · exact fun _ h => h
  · dsimp only
    split
    · exact subset_sadd _ w
    · exact fun _ h => h

/-- The failure counter after a bump: previous count (0 when absent) plus 1. -/
theorem rvf_count (a : AgentState) (w : String) :
    mget (a.recordValidationFailure w).validationFailures w =
      some ((mget a.validationFailures w).getD 0 + 1) := by
  unfold AgentState.recordValidationFailure
  cases h : mget a.validationFailures w
  · simpa using mget_mset_self a.validationFailures w 1
  · dsimp only
    split <;> simpa using mget_mset_self a.validationFailures w _

/-- A bump on an already-counted wallet whose new count reaches the
threshold bans it. -/
theorem rvf_bans (a : AgentState) (w : String) (k : Nat)
    (hk : mget a.validationFailures w = some k)
    (hth : k + 1 ≥ a.maxFailuresBeforeBan) :
    w ∈ (a.recordValidationFailure w).bannedWallets := by
  unfold AgentState.recordValidationFailure
  rw [hk]
  dsimp only
  rw [if_pos hth]
  exact mem_sadd_self _ w

/-- `getPublicKeyForWallet` touches only the directory. -/
theorem getPK_fields (a : AgentState) (w : String) :
    ((a.getPublicKeyForWallet w).1).seenCoins = a.seenCoins ∧
    ((a.getPublicKeyForWallet w).1).bannedWallets = a.bannedWallets ∧
    ((a.getPublicKeyForWallet w).1).validatedValues = a.validatedValues ∧
    ((a.getPublicKeyForWallet w).1).validationFailures = a.validationFailures ∧
    ((a.getPublicKeyForWallet w).1).maxFailuresBeforeBan = a.maxFailuresBeforeBan ∧
    ((a.getPublicKeyForWallet w).1).recentTransactionCache = a.recentTransactionCache ∧
    ((a.getPublicKeyForWallet w).1).wallet = a.wallet ∧
    ((a.getPublicKeyForWallet w).1).maxCacheSize = a.maxCacheSize ∧
    ((a.getPublicKeyForWallet w).1).reputation = a.reputation := by
  unfold AgentState.getPublicKeyForWallet
  cases mget a.publicKeyDirectory w
  · dsimp only
    split <;> exact ⟨rfl, rfl, rfl, rfl, rfl, rfl, rfl, rfl, rfl⟩
  · exact ⟨rfl, rfl, rfl, rfl, rfl, rfl, rfl, rfl, rfl⟩

/-- `pruneCache` touches only the recency cache. -/
theorem pruneCache_fields (a : AgentState) :
    (a.pruneCache).seenCoins = a.seenCoins ∧
    (a.pruneCache).bannedWallets = a.bannedWallets ∧
    (a.pruneCache).validatedValues = a.validatedValues ∧
    (a.pruneCache).validationFailures = a.validationFailures ∧
    (a.pruneCache).maxFailuresBeforeBan = a.maxFailuresBeforeBan ∧
    (a.pruneCache).wallet = a.wallet ∧
    (a.pruneCache).reputation = a.reputation := by
  unfold AgentState.pruneCache
  split <;> exact ⟨rfl, rfl, rfl, rfl, rfl, rfl, rfl⟩

/-! Named projections of the above, usable as simp lemmas. -/

theorem rvf_seen (a : AgentState) (w : String) :
    (a.recordValidationFailure w).seenCoins = a.seenCoins := (rvf_fields a w).1

theorem rvf_vv (a : AgentState) (w : String) :
    (a.recordValidationFailure w).validatedValues = a.validatedValues :=
  (rvf_fields a w).2.1

theorem rvf_cache (a : AgentState) (w : String) :
    (a.recordValidationFailure w).recentTransactionCache =
      a.recentTransactionCache := (rvf_fields a w).2.2.1

theorem rvf_max (a : AgentState) (w : String) :
    (a.recordValidationFailure w).maxFailuresBeforeBan =
      a.maxFailuresBeforeBan := (rvf_fields a w).2.2.2.2.2.1

theorem getPK1_seen (a : AgentState) (w : String) :
    ((a.getPublicKeyForWallet w).1).seenCoins = a.seenCoins :=
  (getPK_fields a w).1

theorem getPK1_banned (a : AgentState) (w : String) :
    ((a.getPublicKeyForWallet w).1).bannedWallets = a.bannedWallets :=
  (getPK_fields a w).2.1

theorem getPK1_vv (a : AgentState) (w : String) :
    ((a.getPublicKeyForWallet w).1).validatedValues = a.validatedValues :=
  (getPK_fields a w).2.2.1

theorem prune_seen (a : AgentState) :
    (a.pruneCache).seenCoins = a.seenCoins := (pruneCache_fields a).1

theorem prune_banned (a : AgentState) :
    (a.pruneCache).bannedWallets = a.bannedWallets := (pruneCache_fields a).2.1

theorem prune_vv (a : AgentState) :
    (a.pruneCache).validatedValues = a.validatedValues :=
  (pruneCache_fields a).2.2.1

/-! ### Lemmas about stages 5–11 (`validateFrom5`) -/

theorem vf5_seen_mono (a : AgentState) (t' : Transfer) (c : Coin) (sig : Sig)
    (snd rcp : String) (ts now : Nat) :
    a.seenCoins ⊆ (a.validateFrom5 t' c sig snd rcp ts now).1.seenCoins := by
  unfold AgentState.validateFrom5
  repeat' split
  all_goals intro x hx
  all_goals simp only [AgentState.updateReputation, AgentState.resetValidationFailures,
    prune_seen, rvf_seen, getPK1_seen]
  all_goals try split
  all_goals try simp only [rvf_seen, getPK1_seen]
  all_goals first
    | exact hx
    | exact subset_sadd _ _ hx

/-- `verifyIntegrity` cannot answer `false`: `updateHash` has already
overwritten the stored hash it is compared against. -/
theorem verifyIntegrity_true (c : Coin) : (Coin.verifyIntegrity c).2 = true := by
  simp [Coin.verifyIntegrity, Coin.updateHash]

theorem verifyIntegrity_fst (c : Coin) :
    (Coin.verifyIntegrity c).1 = Coin.updateHash c := rfl

theorem updateHash_id (c : Coin) : (Coin.updateHash c).id = c.id := rfl

theorem updateHash_value (c : Coin) : (Coin.updateHash c).value = c.value := rfl

theorem updateHash_status (c : Coin) : (Coin.updateHash c).status = c.status := rfl

theorem vf5_banned_mono (a : AgentState) (t' : Transfer) (c : Coin) (sig : Sig)
    (snd rcp : String) (ts now : Nat) :
    a.bannedWallets ⊆ (a.validateFrom5 t' c sig snd rcp ts now).1.bannedWallets := by
  unfold AgentState.validateFrom5
  repeat' split
  all_goals intro x hx
  all_goals simp only [AgentState.updateReputation, AgentState.resetValidationFailures,
    prune_banned, getPK1_banned]
  all_goals try split
  all_goals try simp only [getPK1_banned]
  all_goals first
    | exact hx
    | exact rvf_banned_mono _ _ hx

theorem vf5_valid_seen (a : AgentState) (t' : Transfer) (c : Coin) (sig : Sig)
    (snd rcp : String) (ts now : Nat) :
    (a.validateFrom5 t' c sig snd rcp ts now).2.2.valid = true →
      c.id ∈ (a.validateFrom5 t' c sig snd rcp ts now).1.seenCoins := by
  unfold AgentState.validateFrom5
  try dsimp only
  repeat' split
  all_goals intro hv
  all_goals try (simp [invalidRes] at hv)
  all_goals simp only [AgentState.updateReputation, AgentState.resetValidationFailures,
    prune_seen]
  all_goals exact mem_sadd_self _ _

/-- Stage 5 blocks any coin id already in the seen-set, with the
cache-dependent double-spend reason. -/
theorem vf5_seen_blocks (a : AgentState) (t' : Transfer) (c : Coin) (sig : Sig)
    (snd rcp : String) (ts now : Nat) (h : c.id ∈ a.seenCoins) :
    (a.validateFrom5 t' c sig snd rcp ts now).2.2.valid = false ∧
    ((mget a.recentTransactionCache c.id = none ∧
      (a.validateFrom5 t' c sig snd rcp ts now).2.2.reason =
        some "possible double-spend detected") ∨
     (∃ prev, mget a.recentTransactionCache c.id = some prev ∧
      (a.validateFrom5 t' c sig snd rcp ts now).2.2.reason =
        some ("confirmed double-spend detected (previous transfer: " ++
          toString prev.timestamp ++ ")"))) := by
  unfold AgentState.validateFrom5
  rw [if_pos h]
  rcases hm : mget a.recentTransactionCache c.id with _ | prev
  · exact ⟨rfl, Or.inl ⟨rfl, rfl⟩⟩
  · exact ⟨rfl, Or.inr ⟨prev, rfl, rfl⟩⟩

/-- Stages 5–11 never increase the value recorded for any coin id: the
accept stage records `coin.value`, which the hypothesis bounds when the
ids collide, and no other stage touches `validatedValues`. -/
theorem vf5_vv_mono (a : AgentState) (t' : Transfer) (c : Coin) (sig : Sig)
    (snd rcp : String) (ts now : Nat) (cid : String) (v0 : ℚ)
    (h0 : mget a.validatedValues cid = some v0)
    (hc : c.id = cid → c.value ≤ v0) :
    ∃ v1, mget (a.validateFrom5 t' c sig snd rcp ts now).1.validatedValues cid =
      some v1 ∧ v1 ≤ v0 := by
  unfold AgentState.validateFrom5
  try dsimp only
  repeat' split
  all_goals simp only [AgentState.updateReputation, AgentState.resetValidationFailures,
    prune_vv, rvf_vv, getPK1_vv]
  all_goals try exact ⟨v0, h0, le_refl v0⟩
  -- accept branch: the recorded map is `mset … c.id c.value`
  by_cases hid : c.id = cid
  · subst hid
    exact ⟨c.value, by rw [mget_mset_self], hc rfl⟩
  · exact ⟨v0, by rw [mget_mset_ne _ _ _ _ hid]; exact h0, le_refl v0⟩

/-- Validity implies the coin id was NOT already in the seen-set (stage 5
guards the accept path). -/
theorem vf5_valid_not_seen (a : AgentState) (t' : Transfer) (c : Coin)
    (sig : Sig) (snd rcp : String) (ts now : Nat) :
    (a.validateFrom5 t' c sig snd rcp ts now).2.2.valid = true →
      c.id ∉ a.seenCoins := by
  unfold AgentState.validateFrom5
  try dsimp only
  repeat' split
  all_goals intro hv
  all_goals try (simp [invalidRes] at hv)
  all_goals intro hmem
  all_goals exact absurd hmem (by assumption)

/-! ### Lemmas about the full pipeline (`validateTransfer`) -/

theorem vt_seen_mono (s : AgentState) (t : Transfer) (now : Nat) :
    s.seenCoins ⊆ (s.validateTransfer t now).1.seenCoins := by
  unfold AgentState.validateTransfer
  try dsimp only
  repeat' split
  all_goals intro x hx
  all_goals try simp only [rvf_seen]
  all_goals first
    | exact hx
    | exact vf5_seen_mono _ _ _ _ _ _ _ _ hx

theorem vt_banned_mono (s : AgentState) (t : Transfer) (now : Nat) :
    s.bannedWallets ⊆ (s.validateTransfer t now).1.bannedWallets := by
  unfold AgentState.validateTransfer
  try dsimp only
  repeat' split
  all_goals intro x hx
  all_goals first
    | exact hx
    | exact rvf_banned_mono _ _ hx
    | exact vf5_banned_mono _ _ _ _ _ _ _ _ hx

theorem vt_valid_seen (s : AgentState) (t : Transfer) (now : Nat) (c : Coin)
    (hc : t.coin = some c) :
    (s.validateTransfer t now).2.2.valid = true →
      c.id ∈ (s.validateTransfer t now).1.seenCoins := by
  unfold AgentState.validateTransfer
  simp only [hc, Option.getD_some]
  try dsimp only
  repeat' split
  all_goals intro hv
  all_goals try (simp [invalidRes] at hv)
  all_goals exact vf5_valid_seen _ _ _ _ _ _ _ _ hv

theorem vt_seen_blocks (s : AgentState) (t : Transfer) (now : Nat) (c : Coin)
    (hc : t.coin = some c) (hseen : c.id ∈ s.seenCoins) :
    (s.validateTransfer t now).2.2.valid = false := by
  unfold AgentState.validateTransfer
  simp only [hc, Option.getD_some]
  try dsimp only
  repeat' split
  all_goals try rfl
  all_goals by_contra hne
  all_goals simp only [Bool.not_eq_false] at hne
  all_goals exact (vf5_valid_not_seen _ _ _ _ _ _ _ _ hne) hseen

theorem vt_vv_mono (s : AgentState) (t : Transfer) (now : Nat) (cid : String)
    (v0 : ℚ) (h0 : mget s.validatedValues cid = some v0) :
    ∃ v1, mget (s.validateTransfer t now).1.validatedValues cid = some v1 ∧
      v1 ≤ v0 := by
  unfold AgentState.validateTransfer
  try dsimp only
  repeat' split
  all_goals try exact ⟨v0, h0, le_refl v0⟩
  all_goals try exact ⟨v0, by simp only [rvf_vv]; exact h0, le_refl v0⟩
  all_goals refine vf5_vv_mono _ _ _ _ _ _ _ _ cid v0 h0 (fun hid => ?_)
  all_goals simp only [hid] at *
  all_goals simp_all [not_lt]

/-- A banned sender is rejected at stage 0 of any well-formed validation. -/
theorem vt_lit_banned_reject (s : AgentState) (c : Coin) (sig : Sig)
    (snd rcp : String) (tts now : Nat) (hsnd : ¬ snd = "") (hrcp : ¬ rcp = "")
    (hban : s.isWalletBanned snd = true) :
    (s.validateTransfer
        { coin := some c, signature := some sig, sender := some snd,
          recipient := some rcp, timestamp := tts } now).2.2 =
      invalidRes "sender wallet is banned due to suspicious activity" := by
  unfold AgentState.validateTransfer
  dsimp only [AgentState.isWalletBanned, Option.getD_some]
  simp only [AgentState.isWalletBanned] at hban
  rw [if_neg (by simp [strFalsy, hsnd, hrcp])]
  rw [if_pos hban]

/-- A presented value strictly above the recorded one is rejected at stage 4
of any well-formed validation whose earlier stages pass. -/
theorem vt_lit_inflation_reject (s : AgentState) (c : Coin) (sig : Sig)
    (snd rcp : String) (tts now : Nat) (hsnd : ¬ snd = "") (hrcp : ¬ rcp = "")
    (hban : s.isWalletBanned snd = false) (hstat : c.status = "active")
    (hpos : ¬ c.value ≤ 0) (v0 : ℚ)
    (hm : mget s.validatedValues c.id = some v0) (hgt : c.value > v0) :
    (s.validateTransfer
        { coin := some c, signature := some sig, sender := some snd,
          recipient := some rcp, timestamp := tts } now).2.2 =
      invalidRes ("coin value has been inflated from " ++ toString v0 ++
        " to " ++ toString c.value) := by
  unfold AgentState.validateTransfer
  dsimp only [AgentState.isWalletBanned, Option.getD_some]
  simp only [AgentState.isWalletBanned] at hban
  rw [if_neg (by simp [strFalsy, hsnd, hrcp])]
  rw [if_neg (by simp [hban])]
  simp only [verifyIntegrity_fst, updateHash_id, updateHash_value, updateHash_status]
  rw [if_neg (by simp [verifyIntegrity_true])]
  rw [if_neg (by simp [hstat])]
  rw [if_neg hpos]
  rw [hm]
  dsimp only
  rw [if_pos hgt]

/-- A coin id already in the seen-set is rejected at stage 5, with the
cache-dependent double-spend reason, whenever the earlier stages pass. -/
theorem vt_lit_seen_reason (s : AgentState) (c : Coin) (sig : Sig)
    (snd rcp : String) (tts now : Nat) (hsnd : ¬ snd = "") (hrcp : ¬ rcp = "")
    (hban : s.isWalletBanned snd = false) (hstat : c.status = "active")
    (hpos : ¬ c.value ≤ 0)
    (hinfl : ∀ v0, mget s.validatedValues c.id = some v0 → ¬ c.value > v0)
    (hseen : c.id ∈ s.seenCoins) :
    (s.validateTransfer
        { coin := some c, signature := some sig, sender := some snd,
          recipient := some rcp, timestamp := tts } now).2.2.valid = false ∧
    ((mget s.recentTransactionCache c.id = none ∧
      (s.validateTransfer
          { coin := some c, signature := some sig, sender := some snd,
            recipient := some rcp, timestamp := tts } now).2.2.reason =
        some "possible double-spend detected") ∨
     (∃ prev, mget s.recentTransactionCache c.id = some prev ∧
      (s.validateTransfer
          { coin := some c, signature := some sig, sender := some snd,
            recipient := some rcp, timestamp := tts } now).2.2.reason =
        some ("confirmed double-spend detected (previous transfer: " ++
          toString prev.timestamp ++ ")"))) := by
  unfold AgentState.validateTransfer
  dsimp only [AgentState.isWalletBanned, Option.getD_some]
  simp only [AgentState.isWalletBanned] at hban
  rw [if_neg (by simp [strFalsy, hsnd, hrcp])]
  rw [if_neg (by simp [hban])]
  simp only [verifyIntegrity_fst, updateHash_id, updateHash_value, updateHash_status]
  rw [if_neg (by simp [verifyIntegrity_true])]
  rw [if_neg (by simp [hstat])]
  rw [if_neg hpos]
  rcases hm : mget s.validatedValues c.id with _ | v0
  · exact vf5_seen_blocks _ _ _ _ _ _ _ _ hseen
  · dsimp only
    rw [if_neg (hinfl v0 hm)]
    exact vf5_seen_blocks _ _ _ _ _ _ _ _ hseen

/-- C4 (amended).  Double-spend permanence, as the code implements it:
(1) the seen-set only ever grows across validations; (2) a validation that
returns valid has recorded the presented coin id in the seen-set; (3) any
validation referencing a coin id already in the seen-set returns
`valid = false`; and (4) when such a transfer also passes the stages that
precede the double-spend check — well-formed fields, sender not banned,
active status, positive value, value not above the recorded one — the
reason is the double-spend reason: `confirmed double-spend detected
(previous transfer: …)` when the id is in the recency cache, else
`possible double-spend detected`.  (The unamended claim promised the
double-spend reason for EVERY subsequent validation; an earlier stage may
preempt it — see the counterexample.) -/
theorem c4_double_spend_permanence :
    (∀ (s : AgentState) (t : Transfer) (now : Nat),
      s.seenCoins ⊆ (s.validateTransfer t now).1.seenCoins) ∧
    (∀ (s : AgentState) (t : Transfer) (now : Nat) (c : Coin),
      t.coin = some c → (s.validateTransfer t now).2.2.valid = true →
      c.id ∈ (s.validateTransfer t now).1.seenCoins) ∧
    (∀ (s : AgentState) (t : Transfer) (now : Nat) (c : Coin),
      t.coin = some c → c.id ∈ s.seenCoins →
      (s.validateTransfer t now).2.2.valid = false) ∧
    (∀ (s : AgentState) (c : Coin) (sig : Sig) (snd rcp : String)
      (tts now : Nat), ¬ snd = "" → ¬ rcp = "" →
      s.isWalletBanned snd = false → c.status = "active" → ¬ c.value ≤ 0 →
      (∀ v0, mget s.validatedValues c.id = some v0 → ¬ c.value > v0) →
      c.id ∈ s.seenCoins →
      (s.validateTransfer
          { coin := some c, signature := some sig, sender := some snd,
            recipient := some rcp, timestamp := tts } now).2.2.valid = false ∧
      ((mget s.recentTransactionCache c.id = none ∧
        (s.validateTransfer
            { coin := some c, signature := some sig, sender := some snd,
              recipient := some rcp, timestamp := tts } now).2.2.reason =
          some "possible double-spend detected") ∨
       (∃ prev, mget s.recentTransactionCache c.id = some prev ∧
        (s.validateTransfer
            { coin := some c, signature := some sig, sender := some snd,
              recipient := some rcp, timestamp := tts } now).2.2.reason =
          some ("confirmed double-spend detected (previous transfer: " ++
            toString prev.timestamp ++ ")")))) := by
  refine ⟨vt_seen_mono, vt_valid_seen, vt_seen_blocks, ?_⟩
  intro s c sig snd rcp tts now hsnd hrcp hban hstat hpos hinfl hseen
  exact vt_lit_seen_reason s c sig snd rcp tts now hsnd hrcp hban hstat hpos
    hinfl hseen

set_option maxRecDepth 40000 in
/-- C4 counterexample to the claim as stated: after witness `c4agent0`
successfully validates coin X (so `coin-X` enters its seen-set AND its
recency cache), a subsequent validation referencing the same coin id with
the value inflated to 7 is rejected with the INFLATION reason of stage 4 —
not the `confirmed double-spend detected (previous transfer: 500)` reason
the claim promises for a coin id in the recency cache, and not the
`possible double-spend detected` one either. -/
theorem c4_counterexample :
    (c4agent0.validateTransfer c4t1 500).2.2.valid = true ∧
    "coin-X" ∈ c4s1.seenCoins ∧
    mhas c4s1.recentTransactionCache "coin-X" = true ∧
    (c4s1.validateTransfer c4t2 600).2.2.valid = false ∧
    (c4s1.validateTransfer c4t2 600).2.2.reason =
      some "coin value has been inflated from 5 to 7" ∧
    ((c4s1.validateTransfer c4t2 600).2.2.reason ==
      some "confirmed double-spend detected (previous transfer: 500)") = false ∧
    ((c4s1.validateTransfer c4t2 600).2.2.reason ==
      some "possible double-spend detected") = false := by
  decide

set_option maxRecDepth 40000 in
/-- Witness for C4: the amended theorem applied at the concrete witness
state after a successful validation of coin X, to a well-formed
non-inflated transfer referencing the same coin id. -/
theorem c4_witness :
    (c4s1.validateTransfer c4t3 700).2.2.valid = false ∧
    ((mget c4s1.recentTransactionCache "coin-X" = none ∧
      (c4s1.validateTransfer c4t3 700).2.2.reason =
        some "possible double-spend detected") ∨
     (∃ prev, mget c4s1.recentTransactionCache "coin-X" = some prev ∧
      (c4s1.validateTransfer c4t3 700).2.2.reason =
        some ("confirmed double-spend detected (previous transfer: " ++
          toString prev.timestamp ++ ")"))) :=
  c4_double_spend_permanence.2.2.2 c4s1 coinX ⟨"junk", 0⟩ (walletIdOf 0)
    (walletIdOf 1) 700 700 (by decide) (by decide) (by decide) (by decide)
    (by decide)
    (by
      intro v0 h
      rw [show coinX.id = "coin-X" from rfl] at h
      have h5 : mget c4s1.validatedValues "coin-X" = some (5 : ℚ) := by decide
      rw [h5] at h
      cases h
      decide)
    (by decide)

/-- C5.  With the hard-coded `maxFailuresBeforeBan = 5`: (1) five
consecutive `recordValidationFailure` bumps attributed to wallet `W`, from
any starting state and with no intervening reset, leave `W` in
`bannedWallets`; (2) no validation ever removes a wallet from
`bannedWallets`; and (3) every subsequent well-formed validation whose
sender is a banned `W` returns `valid = false` with reason
`'sender wallet is banned due to suspicious activity'` (stage 0). -/
theorem c5_five_failures_ban (a : AgentState) (W : String)
    (hmax : a.maxFailuresBeforeBan = 5) :
    W ∈ (((((a.recordValidationFailure W).recordValidationFailure
        W).recordValidationFailure W).recordValidationFailure
        W).recordValidationFailure W).bannedWallets ∧
    (∀ (s : AgentState) (t : Transfer) (now : Nat),
      s.bannedWallets ⊆ (s.validateTransfer t now).1.bannedWallets) ∧
    (∀ (s : AgentState) (c : Coin) (sig : Sig) (rcp : String) (tts now : Nat),
      ¬ W = "" → ¬ rcp = "" → W ∈ s.bannedWallets →
      (s.validateTransfer
          { coin := some c, signature := some sig, sender := some W,
            recipient := some rcp, timestamp := tts } now).2.2 =
        invalidRes "sender wallet is banned due to suspicious activity") := by
  refine ⟨?_, vt_banned_mono, ?_⟩
  · have h1 := rvf_count a W
    have h2 := rvf_count (a.recordValidationFailure W) W
    rw [h1] at h2
    have h3 := rvf_count ((a.recordValidationFailure W).recordValidationFailure W) W
    rw [h2] at h3
    have h4 := rvf_count (((a.recordValidationFailure W).recordValidationFailure
      W).recordValidationFailure W) W
    rw [h3] at h4
    have hm4 : ((((a.recordValidationFailure W).recordValidationFailure
        W).recordValidationFailure W).recordValidationFailure
        W).maxFailuresBeforeBan = 5 := by
      rw [rvf_max, rvf_max, rvf_max, rvf_max, hmax]
    refine rvf_bans _ W _ h4 ?_
    rw [hm4]
    simp only [Option.getD_some]
    omega
  · intro s c sig rcp tts now hW hrcp hmem
    exact vt_lit_banned_reject s c sig W rcp tts now hW hrcp
      (by simp [AgentState.isWalletBanned, hmem])

/-- Witness for C5: a fresh agent (its constructor sets the threshold to 5)
bans wallet `w` after five straight failure bumps, and a banned-sender
validation at a concrete state and transfer returns the ban verdict. -/
theorem c5_witness :
    "w" ∈ ((((((AgentState.create 7 7 0).recordValidationFailure
        "w").recordValidationFailure "w").recordValidationFailure
        "w").recordValidationFailure "w").recordValidationFailure
        "w").bannedWallets ∧
    (c5banned.validateTransfer c5t 9).2.2 =
      invalidRes "sender wallet is banned due to suspicious activity" :=
  ⟨(c5_five_failures_ban (AgentState.create 7 7 0) "w" (by decide)).1,
   (c5_five_failures_ban c5banned "w" (by decide)).2.2 c5banned coinX ⟨"x", 0⟩
     "r" 1 9 (by decide) (by decide) (by decide)⟩

/-- C8 (amended).  Inflation monotonicity: (1) across any sequence of
validations, the value a witness has recorded for a coin id never
increases (each accepted validation re-records a value bounded by the
previous one, and nothing else touches `validatedValues`); (2) a
well-formed validation presenting a value strictly above the recorded one,
whose earlier stages pass (sender not banned, active status, positive
value), is rejected with reason `'coin value has been inflated from X to
Y'`.  (The unamended claim promised that reason for EVERY inflated
presentation; an earlier stage may preempt it — see the counterexample.) -/
theorem c8_inflation_monotonicity :
    (∀ (s : AgentState) (ts : List (Transfer × Nat)) (cid : String) (v0 : ℚ),
      mget s.validatedValues cid = some v0 →
      ∃ v1, mget (s.validateMany ts).validatedValues cid = some v1 ∧ v1 ≤ v0) ∧
    (∀ (s : AgentState) (c : Coin) (sig : Sig) (snd rcp : String)
      (tts now : Nat) (v0 : ℚ), ¬ snd = "" → ¬ rcp = "" →
      s.isWalletBanned snd = false → c.status = "active" → ¬ c.value ≤ 0 →
      mget s.validatedValues c.id = some v0 → c.value > v0 →
      (s.validateTransfer
          { coin := some c, signature := some sig, sender := some snd,
            recipient := some rcp, timestamp := tts } now).2.2 =
        invalidRes ("coin value has been inflated from " ++ toString v0 ++
          " to " ++ toString c.value)) := by
  constructor
  · intro s ts
    induction ts generalizing s with
    | nil => exact fun cid v0 h0 => ⟨v0, h0, le_refl v0⟩
    | cons p rest ih =>
      intro cid v0 h0
      obtain ⟨v1, h1, hle1⟩ := vt_vv_mono s p.1 p.2 cid v0 h0
      obtain ⟨v2, h2, hle2⟩ := ih (s.validateTransfer p.1 p.2).1 cid v1 h1
      exact ⟨v2, h2, le_trans hle2 hle1⟩
  · intro s c sig snd rcp tts now v0 hsnd hrcp hban hstat hpos hm hgt
    exact vt_lit_inflation_reject s c sig snd rcp tts now hsnd hrcp hban hstat
      hpos v0 hm hgt

/-- C8 counterexample to the claim as stated: an agent that recorded value
5 for coin X and has banned the sender rejects the inflated (value-7)
presentation with the BAN reason of stage 0, not the inflation reason the
claim promises. -/
theorem c8_counterexample :
    mget c8agent.validatedValues "coin-X" = some 5 ∧
    (5 : ℚ) < 7 ∧
    (c8agent.validateTransfer c8t 6).2.2.valid = false ∧
    (c8agent.validateTransfer c8t 6).2.2.reason =
      some "sender wallet is banned due to suspicious activity" ∧
    ((c8agent.validateTransfer c8t 6).2.2.reason ==
      some "coin value has been inflated from 5 to 7") = false := by
  refine ⟨by decide, by norm_num, by decide, by decide, by decide⟩

/-- Witness for C8: the amended theorem at a concrete recorded value 5, an
inflated value-7 presentation (rejected with the inflation reason), and a
one-validation sequence (the recorded value does not increase). -/
theorem c8_witness :
    (c8agent2.validateTransfer
        { coin := some { coinX with value := 7 }, signature := some ⟨"x", 0⟩,
          sender := some "w", recipient := some "r", timestamp := 5 }
        6).2.2 =
      invalidRes ("coin value has been inflated from " ++ toString (5 : ℚ) ++
        " to " ++ toString (7 : ℚ)) ∧
    (∃ v1, mget (c8agent2.validateMany
        [({ coin := some { coinX with value := 7 },
            signature := some ⟨"x", 0⟩, sender := some "w",
            recipient := some "r", timestamp := 5 }, 6)]).validatedValues
        "coin-X" = some v1 ∧ v1 ≤ 5) :=
  ⟨c8_inflation_monotonicity.2 c8agent2 { coinX with value := 7 } ⟨"x", 0⟩
     "w" "r" 5 6 5 (by decide) (by decide) (by decide) (by decide)
     (by decide) (by decide) (by norm_num),
   c8_inflation_monotonicity.1 c8agent2 _ "coin-X" 5 (by decide)⟩

theorem updateHash_ownerId (c : Coin) :
    (Coin.updateHash c).ownerId = c.ownerId := rfl

theorem getId_keyIdx (w : WalletState) : w.getId = walletIdOf w.keyIdx := rfl

/-- Agent M's literal wallet is exactly what `n` `Wallet.addCoin` calls on
a fresh wallet produce (as `initialize` seeds coins): each call accepts the
owned coin, appends it, and records a `receive`. -/
theorem c6wallet_from_addCoin (n : Nat) :
    (List.range n).foldl (fun (w : WalletState) j => (w.addCoin (c6coin j) 1000).1)
      { keyIdx := 0, coins := [], transactions := [] } =
    { keyIdx := 0, coins := (List.range n).map c6coin,
      transactions := (List.range n).map (fun j =>
        { kind := "receive", coinId := (c6coin j).id, timestamp := 1000,
          recipient := "self", value := 5 }) } := by
  induction n with
  | zero => rfl
  | succ m ih =>
    rw [List.range_succ, List.foldl_append, ih, List.map_append, List.map_append]
    simp only [List.foldl_cons, List.foldl_nil, List.map_cons, List.map_nil]
    unfold WalletState.addCoin WalletState.recordTransaction
    simp only [c6coin, Coin.updateHash, getId_keyIdx]
    norm_num [jsOrQ, jsOrStr]

/-- The 30-coin instance used by the scenario. -/
theorem c6agent0_wallet_from_addCoin :
    (List.range 30).foldl (fun (w : WalletState) j => (w.addCoin (c6coin j) 1000).1)
      { keyIdx := 0, coins := [], transactions := [] } = (c6agent 0).wallet := by
  rw [c6wallet_from_addCoin 30]
  rfl

set_option maxRecDepth 200000 in
/-- C6 counterexample to the claim as stated: in Scenario D (all agents at
score 100 with no history, M = agent 0 running 30 forged transfers, each
rejected by a witness — `transaction:invalid` fires 30 times and nothing is
confirmed), M's reputation score is still 100, NOT below 50: the pipeline
only ever updates the VALIDATING witness's own reputation, never the
sender's, and the rejection paths taken here (`invalid signature`, then
the ban check) perform no reputation update at all. -/
theorem c6_counterexample :
    (c6run.2.filter isInvalidEv).length = 30 ∧
    c6run.2.all (fun e => !isConfirmedEv e) = true ∧
    ((c6run.1.agents.get? 0).map
      (fun a => decide (a.reputation.score < 50))) = some false := by
  decide

set_option maxRecDepth 200000 in
/-- C6 (amended).  After the 30 forged transfers from M, each rejected by
a witness, EVERY agent's reputation score — M's included — is unchanged at
100; in particular every non-malicious agent's score is above 80 (that half
of the claim holds), while M's is not below 50 (that half fails). -/
theorem c6_reputation_drift_amended :
    (c6run.2.filter isInvalidEv).length = 30 ∧
    c6run.2.all (fun e => !isConfirmedEv e) = true ∧
    c6run.1.agents.map (fun a => a.reputation.score) =
      [100, 100, 100, 100, 100] ∧
    c6run.1.agents.all (fun a => decide (a.reputation.score > 80)) = true := by
  decide

/-- C7.  The reputation score stays inside `[0, 100]` under any sequence of
`updateReputation` calls with nonnegative importances (every call the
validation pipeline makes has importance 2, 3/2, 1 or 1/2), starting from
any score in `[0, 100]`: success clamps with `min(100, ·)` after a
nonnegative increase, failure clamps with `max(0, ·)` after a nonnegative
decrease. -/
theorem c7_reputation_score_in_bounds (r : Reputation)
    (calls : List (Bool × ℚ × Nat)) (h0 : 0 ≤ r.score) (h1 : r.score ≤ 100)
    (himp : ∀ c ∈ calls, 0 ≤ c.2.1) :
    0 ≤ (r.runUpdates calls).score ∧ (r.runUpdates calls).score ≤ 100 := by
  induction calls generalizing r with
  | nil => exact ⟨h0, h1⟩
  | cons c rest ih =>
    have hc : 0 ≤ c.2.1 := himp c (by simp)
    have hstep := update_score_bounds r c.1 c.2.1 c.2.2 h0 h1 hc
    exact ih (r.update c.1 c.2.1 c.2.2) hstep.1 hstep.2
      (fun x hx => himp x (by simp [hx]))

/-- Witness for C7: a concrete pipeline-shaped call sequence from the
initial score 100. -/
theorem c7_witness :
    0 ≤ ((Reputation.initial 0).runUpdates
        [(true, 2, 1), (true, 3/2, 2), (true, 1, 3), (false, 1/2, 4)]).score ∧
      ((Reputation.initial 0).runUpdates
        [(true, 2, 1), (true, 3/2, 2), (true, 1, 3), (false, 1/2, 4)]).score ≤ 100 :=
  c7_reputation_score_in_bounds (Reputation.initial 0) _
    (by norm_num [Reputation.initial]) (by norm_num [Reputation.initial])
    (by intro c hc; fin_cases hc <;> norm_num)

set_option maxRecDepth 20000 in
/-- C9 counterexample.  After 101 `updateReputation` calls from the initial
reputation, the history holds 101 entries — strictly more than the 100 the
claim allows ("at most 100 entries after every updateReputation call"). -/
theorem c9_counterexample :
    ((Reputation.initial 0).runUpdates
        (List.replicate 101 (true, 1, 0))).history.length = 101 := by
  decide

/-- C9 (amended).  The source truncates `reputation.history` to its last
100 entries BEFORE pushing the new entry, so the bound maintained after
every `updateReputation` call is 101 entries, not 100: from any history of
at most 101 entries (in particular from the empty initial history), any
sequence of calls leaves at most 101. -/
theorem c9_history_at_most_101 (r : Reputation)
    (calls : List (Bool × ℚ × Nat)) (h : r.history.length ≤ 101) :
    (r.runUpdates calls).history.length ≤ 101 := by
  induction calls generalizing r with
  | nil => exact h
  | cons c rest ih =>
    exact ih (r.update c.1 c.2.1 c.2.2) (update_history_le r c.1 c.2.1 c.2.2 h)

/-- Witness for C9: the amended bound at a concrete run of 102 calls from
the initial (empty-history) reputation. -/
theorem c9_witness :
    (Reputation.initial 0).history.length ≤ 101 ∧
      ((Reputation.initial 0).runUpdates
          (List.replicate 102 (true, 1, 0))).history.length ≤ 101 :=
  ⟨by decide, c9_history_at_most_101 (Reputation.initial 0) _ (by decide)⟩

/-- C3 (code bug).  `Coin.verifyIntegrity` can never return false: it calls
`updateHash()`, which OVERWRITES `this.hash` with the recomputed hash and
returns it, and then compares that return value against the field it has
just written.  First conjunct: the verdict is `true` for EVERY coin.  On
the concrete tampered coin (value mutated outside the sanctioned
operations) the recomputed hash differs from the stored hash — the check
the spec describes (`Coin.integritySpec`) fails — yet `verifyIntegrity`
answers `true` and silently repairs the stored hash, so the
`deserialize(serialize(C))` integrity condition degenerates to `true` as
well. -/
theorem c3_verifyIntegrity_always_true :
    (∀ c : Coin, (Coin.verifyIntegrity c).2 = true) ∧
    Coin.integritySpec tamperedCoin = false ∧
    (Coin.verifyIntegrity tamperedCoin).2 = true ∧
    (Coin.verifyIntegrity tamperedCoin).1.hash = sha256 (coinHashPreimage tamperedCoin) := by
  refine ⟨?_, by decide, by decide, by decide⟩
  intro c
  simp [Coin.verifyIntegrity, Coin.updateHash]

/-- C1 (code bug).  The happy-path scenario (five agents,
`requiredWitnesses = 3`, all keys registered as `initialize` does, agent 0
transferring its held, active, unexpired, value-5 coin to agent 1) is NOT
confirmed by the code: `Wallet.transferCoin` signs
`"{coin.id}-{sender}-{recipient}-{timestamp}"`, but stage 10 of
`Agent.validateTransfer` verifies that signature against the different
payload `coin.getSignatureData(recipient, timestamp)` =
`"id-owner-recipient-timestamp-value-hash-status"`, so the first witness
rejects with `invalid signature`: no `transaction:confirmed` is emitted, a
`transaction:invalid` is, the coin's owner and empty history are unchanged,
agent 0's wallet has lost the coin and agent 1's wallet never receives it —
and (last conjunct) the stage-10 verification of the produced signature
against the verification payload evaluates to `false`. -/
theorem c1_happy_path_fails_signature_verification :
    c1run.2.1.all (fun e => !isConfirmedEv e) = true ∧
    c1run.2.1.any (isInvalidEvWith "invalid signature") = true ∧
    c1run.2.2 = { success := true, txId := none, reason := none } ∧
    c1run.1.agents.map (fun a => a.wallet.coins.length) = [0, 0, 0, 0, 0] ∧
    c1run.1.pendingTransactions.map
      (fun p => (p.2.status, p.2.transaction.coin.ownerId,
                 p.2.transaction.coin.history.length)) =
      [(some "failed", walletIdOf 0, 0)] ∧
    verifySignature
      ((c1intent.coin.verifyIntegrity).1.getSignatureData c1intent.recipient
        c1intent.timestamp)
      c1intent.signature (pubKeyOf 0) = false := by
  decide

/-- C2 (code bug).  In the same terminally failed transaction (its pending
record carries `status = 'failed'` after the consulted witness's negative
verdict), `Network.transferCoin` does NOT return the coin to the sender's
wallet and returns `{success: true, txId: undefined}` instead of
`{success: false, reason}`: `_processTransaction` returns the bare `txId`
STRING on the negative-verdict path, a string has no `status` property, so
the rollback test `result.status === 'failed'` can never fire (last
conjunct: the `status` property of a bare-string result is absent). -/
theorem c2_failed_transfer_not_rolled_back :
    c1run.1.pendingTransactions.map (fun p => p.2.status) = [some "failed"] ∧
    c1run.1.pendingTransactions.map
      (fun p => p.2.validations.map (fun v => v.valid)) = [[false]] ∧
    (c1run.1.agents.get? 0).map (fun a => a.wallet.coins) = some [] ∧
    c1run.2.2.success = true ∧
    c1run.2.2.reason = none ∧
    c1run.2.2.txId = none ∧
    (∀ s : String, (ProcResult.idStr s).statusProp = none) := by
  refine ⟨by decide, by decide, by decide, by decide, by decide, by decide, ?_⟩
  intro s
  rfl

/-- C10.  `Coin.fromJSON` never yields a coin with `value ≤ 0`: every
successfully deserialized coin has positive value; a serialized `value` of
`0` (or a missing one) silently becomes `1` (`data.value || 1` — not a
faithful round-trip and not an error), while a strictly negative value
makes the `Coin` constructor throw
`'Coin value must be a positive number'`. -/
theorem c10_fromJSON_value_positive :
    (∀ (d : CoinJSON) (fid : String) (now : Nat) (c : Coin),
      Coin.fromJSON d fid now = .ok c → 0 < c.value) ∧
    (∀ (d : CoinJSON) (fid : String) (now : Nat),
      d.value = some 0 ∨ d.value = none →
      ∃ c, Coin.fromJSON d fid now = .ok c ∧ c.value = 1) ∧
    (∀ (d : CoinJSON) (fid : String) (now : Nat) (v : ℚ),
      d.value = some v → v < 0 →
      Coin.fromJSON d fid now = .error "Coin value must be a positive number") := by
  refine ⟨?_, ?_, ?_⟩
  · intro d fid now c h
    unfold Coin.fromJSON Coin.create at h
    by_cases hv : jsOrQ d.value 1 ≤ 0
    · simp [hv] at h
    · simp [hv, Coin.updateHash] at h
      rw [← h]
      simpa using lt_of_not_le hv
  · intro d fid now h
    have hval : jsOrQ d.value 1 = 1 := by
      rcases h with h | h <;> simp [jsOrQ, h]
    refine ⟨?_, ?_, ?_⟩
    · exact Coin.updateHash { (Coin.updateHash
        { id := jsOrStr d.id fid, ownerId := d.ownerId, value := jsOrQ d.value 1,
          history := [], created := now, lastTransferred := now,
          status := "active", expiryDate := none, hash := "" }) with
        created := jsOrNat d.created now,
        lastTransferred := jsOrNat d.lastTransferred (jsOrNat d.created now),
        history := d.history.getD [], hash := d.hash,
        status := jsOrStr d.status "active", expiryDate := d.expiryDate }
    · unfold Coin.fromJSON Coin.create
      rw [hval]
      norm_num
    · simp [Coin.updateHash, hval]
  · intro d fid now v hv hneg
    have hval : jsOrQ d.value 1 = v := by
      simp [jsOrQ, hv]
      intro h0
      rw [h0] at hneg
      exact absurd hneg (by norm_num)
    unfold Coin.fromJSON Coin.create
    rw [hval]
    simp [le_of_lt hneg]

/-- Witness for C10: at concrete inputs, a serialized value of `0`
deserializes to a value-1 coin, and a serialized value of `-3` throws. -/
theorem c10_witness :
    (∃ c, Coin.fromJSON
        { id := some "c0", ownerId := "w", value := some 0, created := some 1,
          lastTransferred := some 1, hash := "h", history := some [],
          status := some "active", expiryDate := none } "fresh" 7 = .ok c ∧
        c.value = 1) ∧
    Coin.fromJSON
        { id := some "c0", ownerId := "w", value := some (-3), created := some 1,
          lastTransferred := some 1, hash := "h", history := some [],
          status := some "active", expiryDate := none } "fresh" 7 =
      .error "Coin value must be a positive number" := by
  constructor
  · exact c10_fromJSON_value_positive.2.1 _ "fresh" 7 (Or.inl rfl)
  · exact c10_fromJSON_value_positive.2.2 _ "fresh" 7 (-3) rfl (by norm_num)

end RNBS
